import Mathlib

/-!
Shallow embedding of `framework/wazuh/core/wazuh_queue.py` (WazuhQueue and
its helpers).  Strings stay Lean `String`s; the socket is replaced by an
explicit stub: `sendResult : Option Nat` is what `socket.send` does
(`none` = the call raises, `some n` = it returns `n` bytes sent), and the
dispatcher result records the list of messages handed to the socket
channel together with the returned confirmation or the raised exception.
-/

/-- The two exception classes used by the module: `WazuhInternalError(code, extra)`
and `WazuhError(code, extra_message=...)`. -/
inductive WazuhException where
  | WazuhInternalError (code : Nat) (extra : String)
  | WazuhError (code : Nat) (extra_message : String)
deriving DecidableEq, Repr

deriving instance DecidableEq for Except

/-- Result of a call to `send_msg_to_agent`: the messages handed to the
socket channel (`self._send`), in order, and the outcome (returned
confirmation string or raised exception). -/
structure DispatchResult where
  writes : List String
  outcome : Except WazuhException String
deriving DecidableEq, Repr

/-- `create_wazuh_queue_socket_msg(flag, str_agent_id, msg, is_restart=False)`:
the legacy framed wire string, with the restart trailer appended exactly when
`is_restart`. -/
def create_wazuh_queue_socket_msg (flag str_agent_id msg : String)
    (is_restart : Bool) : String :=
  if !is_restart then
    "(msg_to_agent) [] " ++ flag ++ " " ++ str_agent_id ++ " " ++ msg
  else
    "(msg_to_agent) [] " ++ flag ++ " " ++ str_agent_id ++ " " ++ msg ++
      " - null (from_the_server) (no_rule_id)"

namespace WazuhQueue

def HC_SK_RESTART : String := "syscheck restart"

def HC_FORCE_RECONNECT : String := "force_reconnect"

def RESTART_AGENTS : String := "restart-ossec0"

/-- Modelled from the spec: `create_wazuh_socket_message` (in
`wazuh_socket.py`, which is not part of the sampled sources) serialized with
`json.dumps`; the spec fixes the envelope's fields as
`{origin:{module:<caller module>}, command:"restart-wazuh0",
parameters:{extra_args:[], alert:{}}}`.  The caller module
(`origin_module.get()`) is kept as a parameter. -/
def RESTART_AGENTS_JSON (originModule : String) : String :=
  "\x7b\"origin\": \x7b\"module\": \"" ++ originModule ++
    "\"\x7d, \"command\": \"restart-wazuh0\", \"parameters\": \x7b\"extra_args\": [], \"alert\": \x7b\x7d\x7d\x7d"

def AR_TYPE : String := "ar-message"

def OS_MAXSTR : Nat := 6144

def MAX_MSG_SIZE : Nat := OS_MAXSTR + 256

/-- Stub view of the underlying Unix datagram socket during `_connect`:
whether creation and `connect` succeed, what `getsockopt(SO_SNDBUF)`
reports (`none` = it raises), and whether `setsockopt` succeeds. -/
structure SocketStub where
  createOk : Bool
  connectOk : Bool
  sndbuf : Option Nat
  setOk : Bool
deriving DecidableEq, Repr

/-- `WazuhQueue._connect`: create/connect the socket, read the send-buffer
size, and enlarge it to `MAX_MSG_SIZE` when it is smaller; any failure is
`WazuhInternalError(1010, path)`.  The `.ok` value is the list of
`setsockopt(SO_SNDBUF, v)` calls issued. -/
def connect_ (path : String) (s : SocketStub) : Except WazuhException (List Nat) :=
  if !s.createOk then .error (.WazuhInternalError 1010 path)
  else if !s.connectOk then .error (.WazuhInternalError 1010 path)
  else
    match s.sndbuf with
    | none => .error (.WazuhInternalError 1010 path)
    | some length_send_buffer =>
      if length_send_buffer < MAX_MSG_SIZE then
        if s.setOk then .ok [MAX_MSG_SIZE]
        else .error (.WazuhInternalError 1010 path)
      else .ok []

/-- `WazuhQueue._send`: `sent = socket.send(msg)`; zero bytes sent, or any
exception from the socket, raise `WazuhInternalError(1011, path)`. -/
def send_ (path : String) (sendResult : Option Nat) : Except WazuhException Unit :=
  match sendResult with
  | none => .error (.WazuhInternalError 1011 path)
  | some sent =>
    if sent = 0 then .error (.WazuhInternalError 1011 path) else .ok ()

end WazuhQueue

/-- The `try: self._send(socket_msg.encode()) except: raise WazuhError(1014, ...)`
trailer of `send_msg_to_agent`, applied once `socket_msg` and `ret_msg` are
fixed. -/
def send_and_wrap (path : String) (sendResult : Option Nat)
    (socket_msg ret_msg : String) : DispatchResult :=
  match WazuhQueue.send_ path sendResult with
  | .ok _ => ⟨[socket_msg], .ok ret_msg⟩
  | .error _ =>
    ⟨[socket_msg], .error (.WazuhError 1014 (": WazuhQueue socket with path " ++ path))⟩

/-- `WazuhQueue.send_msg_to_agent(msg='', agent_id='', msg_type='')`.
`path` is `self.path`, `originModule` the process-wide origin module used to
build `RESTART_AGENTS_JSON`, `sendResult` the socket stub for the one
`socket.send` call. -/
def send_msg_to_agent (path originModule : String) (sendResult : Option Nat)
    (msg agent_id msg_type : String) : DispatchResult :=
  let msg_is_no_ar : Bool :=
    msg == WazuhQueue.HC_SK_RESTART || msg == WazuhQueue.HC_FORCE_RECONNECT
  let msg_is_restart : Bool :=
    msg == WazuhQueue.RESTART_AGENTS || msg == WazuhQueue.RESTART_AGENTS_JSON originModule
  let flag : String :=
    if agent_id ≠ "" then (if !msg_is_no_ar then "NNS" else "N!S")
    else (if !msg_is_no_ar then "ANN" else "A!N")
  let str_agent_id : String := if agent_id ≠ "" then agent_id else "(null)"
  if msg_type == WazuhQueue.AR_TYPE then
    let socket_msg :=
      if agent_id ≠ "000" then create_wazuh_queue_socket_msg flag str_agent_id msg false
      else msg
    send_and_wrap path sendResult socket_msg "Command sent."
  else
    if !msg_is_no_ar && !msg_is_restart then
      ⟨[], .error (.WazuhInternalError 1012 msg)⟩
    else
      let socket_msg := create_wazuh_queue_socket_msg flag str_agent_id msg msg_is_restart
      let ret_msg :=
        if msg == WazuhQueue.HC_SK_RESTART then
          if agent_id ≠ "" then "Restarting Syscheck on agent"
          else "Restarting Syscheck on all agents"
        else if msg == WazuhQueue.HC_FORCE_RECONNECT then
          if agent_id ≠ "" then "Reconnecting agent" else "Reconnecting all agents"
        else
          if agent_id ≠ "" then "Restarting agent" else "Restarting all agents"
      send_and_wrap path sendResult socket_msg ret_msg

/-! ### Spec-side definitions (for refinement statements)

These two definitions follow the words of the spec's §4.2 flag table and
target-placeholder rule, to be compared with what the code emits. -/

/-- The spec's four-way flag rule: targeted/broadcast crossed with whether the
command is one of the two non-active-response commands. -/
def spec_flag (agent_id msg : String) : String :=
  if agent_id ≠ "" then
    if msg = WazuhQueue.HC_SK_RESTART ∨ msg = WazuhQueue.HC_FORCE_RECONNECT then "N!S" else "NNS"
  else
    if msg = WazuhQueue.HC_SK_RESTART ∨ msg = WazuhQueue.HC_FORCE_RECONNECT then "A!N" else "ANN"

/-- The spec's target-placeholder rule: the agent id when targeted, the
literal `(null)` otherwise. -/
def spec_target (agent_id : String) : String :=
  if agent_id ≠ "" then agent_id else "(null)"

/-- The restart trailer appended by `create_wazuh_queue_socket_msg` when
`is_restart` is set. -/
def restart_suffix : String := " - null (from_the_server) (no_rule_id)"

/-- `w` ends with the restart trailer (as a character sequence). -/
def ends_with_restart_suffix (w : String) : Prop :=
  restart_suffix.data <:+ w.data

instance (w : String) : Decidable (ends_with_restart_suffix w) := by
  unfold ends_with_restart_suffix; infer_instance

/-! ### Helper lemmas -/

theorem json_head (om : String) :
    (WazuhQueue.RESTART_AGENTS_JSON om).data.head? = some '{' := by
  simp [WazuhQueue.RESTART_AGENTS_JSON, String.data_append]

theorem json_ne (om s : String) (h : s.data.head? ≠ some '{') :
    WazuhQueue.RESTART_AGENTS_JSON om ≠ s :=
  fun he => h (he ▸ json_head om)

theorem json_beq_sk (om : String) :
    (WazuhQueue.RESTART_AGENTS_JSON om == WazuhQueue.HC_SK_RESTART) = false := by
  rw [beq_eq_false_iff_ne]
  exact json_ne om _ (by decide)

theorem json_beq_fr (om : String) :
    (WazuhQueue.RESTART_AGENTS_JSON om == WazuhQueue.HC_FORCE_RECONNECT) = false := by
  rw [beq_eq_false_iff_ne]
  exact json_ne om _ (by decide)

theorem sk_beq_json (om : String) :
    (WazuhQueue.HC_SK_RESTART == WazuhQueue.RESTART_AGENTS_JSON om) = false := by
  rw [beq_eq_false_iff_ne]
  exact fun h => json_ne om _ (by decide) h.symm

theorem fr_beq_json (om : String) :
    (WazuhQueue.HC_FORCE_RECONNECT == WazuhQueue.RESTART_AGENTS_JSON om) = false := by
  rw [beq_eq_false_iff_ne]
  exact fun h => json_ne om _ (by decide) h.symm

theorem ra_beq_json (om : String) :
    (WazuhQueue.RESTART_AGENTS == WazuhQueue.RESTART_AGENTS_JSON om) = false := by
  rw [beq_eq_false_iff_ne]
  exact fun h => json_ne om _ (by decide) h.symm

theorem getLast_append (a x : String) (c : Char) (h : x.data.getLast? = some c) :
    (a ++ x).data.getLast? = some c := by
  rw [String.data_append, List.getLast?_append_of_ne_nil]
  · exact h
  · intro hx
    rw [hx] at h
    simp at h

theorem suffix_of_append (a : String) :
    ends_with_restart_suffix (a ++ restart_suffix) := by
  unfold ends_with_restart_suffix
  rw [String.data_append]
  exact ⟨a.data, rfl⟩

theorem not_suffix_of_getLast (w : String) (c : Char)
    (h : w.data.getLast? = some c) (hc : c ≠ ')') :
    ¬ ends_with_restart_suffix w := by
  rintro ⟨t, ht⟩
  have h2 : w.data.getLast? = some ')' := by
    rw [← ht, List.getLast?_append_of_ne_nil t (show restart_suffix.data ≠ [] by decide)]
    decide
  rw [h] at h2
  exact hc (by injection h2)

/-! ### Claims -/

/-- C2, counterexample: the spec's round-trip says the wire bytes for
`send_msg_to_agent("force_reconnect", agent_id="007", msg_type="control")`
are `(msg_to_agent) [] NNS 007 force_reconnect`, but the code flags a
targeted `force_reconnect` with `N!S`, so the transmitted message differs
from the claimed bytes. -/
theorem C2_wire_bytes_counterexample :
    (send_msg_to_agent "/q" "api" (some 5) "force_reconnect" "007" "control").writes ≠
      ["(msg_to_agent) [] NNS 007 force_reconnect"] := by
  decide

/-- C2, amended: with the flags the code actually computes (`N!S` for the
targeted non-active-response command, `A!N` for the broadcast one), the two
round trips hold: the wire bytes are
`(msg_to_agent) [] N!S 007 force_reconnect` with return `"Reconnecting agent"`,
and `(msg_to_agent) [] A!N (null) syscheck restart` with return
`"Restarting Syscheck on all agents"`. -/
theorem C2_roundtrip_amended (path om : String) (sr : Option Nat)
    (hsend : WazuhQueue.send_ path sr = .ok ()) :
    send_msg_to_agent path om sr "force_reconnect" "007" "control" =
      ⟨["(msg_to_agent) [] N!S 007 force_reconnect"], .ok "Reconnecting agent"⟩ ∧
    send_msg_to_agent path om sr "syscheck restart" "" "control" =
      ⟨["(msg_to_agent) [] A!N (null) syscheck restart"],
        .ok "Restarting Syscheck on all agents"⟩ := by
  have h1 : ("force_reconnect" : String) ≠ WazuhQueue.RESTART_AGENTS_JSON om :=
    (json_ne om _ (by decide)).symm
  have h2 : ("syscheck restart" : String) ≠ WazuhQueue.RESTART_AGENTS_JSON om :=
    (json_ne om _ (by decide)).symm
  constructor <;>
    simp [send_msg_to_agent, send_and_wrap, hsend, create_wazuh_queue_socket_msg,
      WazuhQueue.HC_SK_RESTART, WazuhQueue.HC_FORCE_RECONNECT, WazuhQueue.RESTART_AGENTS,
      WazuhQueue.AR_TYPE, h1, h2]

theorem C2_roundtrip_amended_witness :
    send_msg_to_agent "/q" "api" (some 5) "force_reconnect" "007" "control" =
      ⟨["(msg_to_agent) [] N!S 007 force_reconnect"], .ok "Reconnecting agent"⟩ :=
  (C2_roundtrip_amended "/q" "api" (some 5) (by decide)).1

/-- C4: on a non-active-response call, a payload that is none of
`syscheck restart`, `force_reconnect`, `restart-ossec0`, or the
restart-wazuh0 JSON envelope raises `WazuhInternalError(1012, msg)` and
nothing is handed to the socket channel. -/
theorem C4_invalid_command_no_io (path om : String) (sr : Option Nat)
    (msg agent_id msg_type : String) (hty : msg_type ≠ WazuhQueue.AR_TYPE)
    (h1 : msg ≠ WazuhQueue.HC_SK_RESTART) (h2 : msg ≠ WazuhQueue.HC_FORCE_RECONNECT)
    (h3 : msg ≠ WazuhQueue.RESTART_AGENTS) (h4 : msg ≠ WazuhQueue.RESTART_AGENTS_JSON om) :
    send_msg_to_agent path om sr msg agent_id msg_type =
      ⟨[], .error (.WazuhInternalError 1012 msg)⟩ := by
  simp [send_msg_to_agent, hty, h1, h2, h3, h4]

theorem C4_invalid_command_no_io_witness :
    send_msg_to_agent "/q" "api" (some 5) "hello" "007" "control" =
      ⟨[], .error (.WazuhInternalError 1012 "hello")⟩ :=
  C4_invalid_command_no_io "/q" "api" (some 5) "hello" "007" "control"
    (by decide) (by decide) (by decide) (by decide) (by decide)

/-- C5: an active-response message addressed to the manager's reserved id
`000` is passed through raw — the transmitted message is the payload itself,
with no framing — and the returned confirmation is `"Command sent."`. -/
theorem C5_ar_manager_raw_passthrough (path om msg : String) (sr : Option Nat)
    (hsend : WazuhQueue.send_ path sr = .ok ()) :
    send_msg_to_agent path om sr msg "000" WazuhQueue.AR_TYPE =
      ⟨[msg], .ok "Command sent."⟩ := by
  simp [send_msg_to_agent, send_and_wrap, hsend]

theorem C5_ar_manager_raw_passthrough_witness :
    send_msg_to_agent "/q" "api" (some 5) "!custom.sh a b" "000" WazuhQueue.AR_TYPE =
      ⟨["!custom.sh a b"], .ok "Command sent."⟩ :=
  C5_ar_manager_raw_passthrough "/q" "api" "!custom.sh a b" (some 5) (by decide)

theorem send_and_wrap_writes (path sm rm : String) (sr : Option Nat) :
    (send_and_wrap path sr sm rm).writes = [sm] := by
  unfold send_and_wrap
  cases WazuhQueue.send_ path sr <;> rfl

theorem send_and_wrap_of_ok (path sm rm : String) (sr : Option Nat)
    (hs : WazuhQueue.send_ path sr = .ok ()) :
    send_and_wrap path sr sm rm = ⟨[sm], .ok rm⟩ := by
  unfold send_and_wrap
  rw [hs]

theorem send_and_wrap_of_error (path sm rm : String) (sr : Option Nat) (e : WazuhException)
    (hs : WazuhQueue.send_ path sr = .error e) :
    send_and_wrap path sr sm rm =
      ⟨[sm], .error (.WazuhError 1014 (": WazuhQueue socket with path " ++ path))⟩ := by
  unfold send_and_wrap
  rw [hs]

theorem writes_length_le_one (path om : String) (sr : Option Nat) (msg aid ty : String) :
    (send_msg_to_agent path om sr msg aid ty).writes.length ≤ 1 := by
  by_cases hty : ty = WazuhQueue.AR_TYPE
  · simp [send_msg_to_agent, send_and_wrap_writes, hty]
  · by_cases h1 : msg = WazuhQueue.HC_SK_RESTART
    · simp [send_msg_to_agent, send_and_wrap_writes, hty, h1]
    · by_cases h2 : msg = WazuhQueue.HC_FORCE_RECONNECT
      · simp [send_msg_to_agent, send_and_wrap_writes, hty, h1, h2]
      · by_cases h3 : msg = WazuhQueue.RESTART_AGENTS
        · simp [send_msg_to_agent, send_and_wrap_writes, hty, h1, h2, h3]
        · by_cases h4 : msg = WazuhQueue.RESTART_AGENTS_JSON om
          · simp [send_msg_to_agent, send_and_wrap_writes, hty, h1, h2, h3, h4]
          · simp [send_msg_to_agent, hty, h1, h2, h3, h4]

/-- C6: on the control channel, the confirmation string is determined by the
matched command and by targeting, exactly as the six-entry table says, and
the six strings are pairwise distinct. -/
theorem C6_control_success_messages (path om : String) (sr : Option Nat)
    (agent_id msg_type : String) (hty : msg_type ≠ WazuhQueue.AR_TYPE)
    (hsend : WazuhQueue.send_ path sr = .ok ()) :
    (send_msg_to_agent path om sr WazuhQueue.HC_SK_RESTART agent_id msg_type).outcome =
      .ok (if agent_id ≠ "" then "Restarting Syscheck on agent"
        else "Restarting Syscheck on all agents") ∧
    (send_msg_to_agent path om sr WazuhQueue.HC_FORCE_RECONNECT agent_id msg_type).outcome =
      .ok (if agent_id ≠ "" then "Reconnecting agent" else "Reconnecting all agents") ∧
    (send_msg_to_agent path om sr WazuhQueue.RESTART_AGENTS agent_id msg_type).outcome =
      .ok (if agent_id ≠ "" then "Restarting agent" else "Restarting all agents") ∧
    (send_msg_to_agent path om sr (WazuhQueue.RESTART_AGENTS_JSON om) agent_id
        msg_type).outcome =
      .ok (if agent_id ≠ "" then "Restarting agent" else "Restarting all agents") ∧
    ["Restarting Syscheck on agent", "Restarting Syscheck on all agents",
      "Reconnecting agent", "Reconnecting all agents",
      "Restarting agent", "Restarting all agents"].Nodup := by
  have hjs : WazuhQueue.RESTART_AGENTS_JSON om ≠ "syscheck restart" :=
    json_ne om _ (by decide)
  have hjf : WazuhQueue.RESTART_AGENTS_JSON om ≠ "force_reconnect" :=
    json_ne om _ (by decide)
  refine ⟨?_, ?_, ?_, ?_, by decide⟩ <;>
    simp [send_msg_to_agent, send_and_wrap_of_ok, hsend, hty, hjs, hjf,
      WazuhQueue.HC_SK_RESTART, WazuhQueue.HC_FORCE_RECONNECT, WazuhQueue.RESTART_AGENTS,
      hjs.symm, hjf.symm]

theorem C6_control_success_messages_witness :
    (send_msg_to_agent "/q" "api" (some 5) WazuhQueue.RESTART_AGENTS "003" "control").outcome =
      .ok "Restarting agent" := by
  have h := (C6_control_success_messages "/q" "api" (some 5) "003" "control"
    (by decide) (by decide)).2.2.1
  simpa using h

/-- C7: `MAX_MSG_SIZE = 6144 + 256 = 6400`; on connect, with creation,
connect and buffer query succeeding, exactly one `setsockopt(SO_SNDBUF, 6400)`
call is issued when the reported buffer is below 6400 and none otherwise; any
failure in creation, connect, query or set raises
`WazuhInternalError(1010, path)`. -/
theorem C7_buffer_negotiation (path : String) (s : WazuhQueue.SocketStub) :
    WazuhQueue.MAX_MSG_SIZE = 6400 ∧
    (∀ len, s.createOk = true → s.connectOk = true → s.sndbuf = some len → s.setOk = true →
      WazuhQueue.connect_ path s = .ok (if len < 6400 then [6400] else [])) ∧
    ((s.createOk = false ∨ s.connectOk = false ∨ s.sndbuf = none ∨
        (∃ len, s.sndbuf = some len ∧ len < 6400 ∧ s.setOk = false)) →
      WazuhQueue.connect_ path s = .error (.WazuhInternalError 1010 path)) := by
  refine ⟨by decide, ?_, ?_⟩
  · intro len h1 h2 h3 h4
    simp [WazuhQueue.connect_, h1, h2, h3, h4, WazuhQueue.MAX_MSG_SIZE, WazuhQueue.OS_MAXSTR]
    split <;> rfl
  · intro h
    rcases h with h | h | h | ⟨len, h3, hlt, h4⟩ <;>
      cases hc : s.createOk <;> cases hn : s.connectOk <;>
        simp_all [WazuhQueue.connect_, WazuhQueue.MAX_MSG_SIZE, WazuhQueue.OS_MAXSTR]

theorem C7_buffer_negotiation_witness :
    WazuhQueue.connect_ "/q" ⟨true, true, some 1000, true⟩ = .ok [6400] := by
  have h := (C7_buffer_negotiation "/q" ⟨true, true, some 1000, true⟩).2.1 1000
    rfl rfl rfl rfl
  simpa using h

/-- C9: the raw pass-through is exclusive to the active-response type: a
control call targeted at the manager's reserved id `000` with a recognized
command emits the ordinary legacy framed message, with `000` as the target
field and the ordinary flag. -/
theorem C9_control_manager_id_framed (path om : String) (sr : Option Nat)
    (msg msg_type : String) (hty : msg_type ≠ WazuhQueue.AR_TYPE)
    (hmsg : msg = WazuhQueue.HC_SK_RESTART ∨ msg = WazuhQueue.HC_FORCE_RECONNECT ∨
      msg = WazuhQueue.RESTART_AGENTS ∨ msg = WazuhQueue.RESTART_AGENTS_JSON om) :
    (send_msg_to_agent path om sr msg "000" msg_type).writes =
      [create_wazuh_queue_socket_msg (spec_flag "000" msg) "000" msg
        (msg == WazuhQueue.RESTART_AGENTS || msg == WazuhQueue.RESTART_AGENTS_JSON om)] := by
  have hjs : WazuhQueue.RESTART_AGENTS_JSON om ≠ "syscheck restart" :=
    json_ne om _ (by decide)
  have hjf : WazuhQueue.RESTART_AGENTS_JSON om ≠ "force_reconnect" :=
    json_ne om _ (by decide)
  have hjr : WazuhQueue.RESTART_AGENTS_JSON om ≠ "restart-ossec0" :=
    json_ne om _ (by decide)
  rcases hmsg with h | h | h | h <;> subst h <;>
    simp [send_msg_to_agent, send_and_wrap_writes, spec_flag, hty,
      WazuhQueue.HC_SK_RESTART, WazuhQueue.HC_FORCE_RECONNECT, WazuhQueue.RESTART_AGENTS,
      hjs, hjf, hjr, hjs.symm, hjf.symm, hjr.symm, create_wazuh_queue_socket_msg]

theorem C9_control_manager_id_framed_witness :
    (send_msg_to_agent "/q" "api" (some 5) WazuhQueue.HC_SK_RESTART "000" "control").writes =
      ["(msg_to_agent) [] N!S 000 syscheck restart"] := by
  have h := C9_control_manager_id_framed "/q" "api" (some 5) WazuhQueue.HC_SK_RESTART
    "control" (by decide) (Or.inl rfl)
  simpa [spec_flag, create_wazuh_queue_socket_msg, WazuhQueue.HC_SK_RESTART] using h

/-- C10: with the active-response message type no payload is ever rejected:
exactly one message is always handed to the socket channel, the only possible
error is the transport-translation `WazuhError(1014, ...)` (never
`WazuhInternalError(1012)`), and a successful send returns `"Command sent."`. -/
theorem C10_ar_never_invalid (path om : String) (sr : Option Nat) (msg agent_id : String) :
    (send_msg_to_agent path om sr msg agent_id WazuhQueue.AR_TYPE).writes.length = 1 ∧
    (∀ e, (send_msg_to_agent path om sr msg agent_id WazuhQueue.AR_TYPE).outcome = .error e →
      e = .WazuhError 1014 (": WazuhQueue socket with path " ++ path)) ∧
    (WazuhQueue.send_ path sr = .ok () →
      (send_msg_to_agent path om sr msg agent_id WazuhQueue.AR_TYPE).outcome =
        .ok "Command sent.") := by
  cases hs : WazuhQueue.send_ path sr with
  | ok u =>
    cases u
    exact ⟨by simp [send_msg_to_agent, send_and_wrap_writes],
      by simp [send_msg_to_agent, send_and_wrap_of_ok, hs],
      by simp [send_msg_to_agent, send_and_wrap_of_ok, hs]⟩
  | error e =>
    refine ⟨by simp [send_msg_to_agent, send_and_wrap_writes], ?_, by simp [hs]⟩
    intro e' he'
    simp [send_msg_to_agent, send_and_wrap_of_error path _ _ sr e hs] at he'
    exact he'.symm

theorem C10_ar_never_invalid_witness :
    (send_msg_to_agent "/q" "api" (some 5) "anything at all" "001"
      WazuhQueue.AR_TYPE).outcome = .ok "Command sent." :=
  (C10_ar_never_invalid "/q" "api" (some 5) "anything at all" "001").2.2 (by decide)

/-- C8: `_send` fails with `WazuhInternalError(1011, path)` exactly when the
socket send raises or reports zero bytes; whenever such a failure happens on
a call that did hand a message to the channel, the dispatcher surfaces
`WazuhError(1014)` naming the socket path — a kind distinct from the
invalid-command `WazuhInternalError(1012)` — and at most one send is ever
attempted. -/
theorem C8_send_failure_translation (path om : String) (sr : Option Nat)
    (msg agent_id msg_type : String) :
    (WazuhQueue.send_ path sr = .error (.WazuhInternalError 1011 path) ↔
      sr = none ∨ sr = some 0) ∧
    ((sr = none ∨ sr = some 0) →
      (send_msg_to_agent path om sr msg agent_id msg_type).writes ≠ [] →
      (send_msg_to_agent path om sr msg agent_id msg_type).outcome =
        .error (.WazuhError 1014 (": WazuhQueue socket with path " ++ path))) ∧
    (∀ x y, (WazuhException.WazuhError 1014 x) ≠ (WazuhException.WazuhInternalError 1012 y)) ∧
    (send_msg_to_agent path om sr msg agent_id msg_type).writes.length ≤ 1 := by
  refine ⟨?_, ?_, by intro x y h; exact WazuhException.noConfusion h,
    writes_length_le_one path om sr msg agent_id msg_type⟩
  · cases sr with
    | none => simp [WazuhQueue.send_]
    | some n => by_cases hn : n = 0 <;> simp [WazuhQueue.send_, hn]
  · intro hfail hw
    have hs : WazuhQueue.send_ path sr = .error (.WazuhInternalError 1011 path) := by
      rcases hfail with h | h <;> subst h <;> simp [WazuhQueue.send_]
    by_cases hty : msg_type = WazuhQueue.AR_TYPE
    · simp [send_msg_to_agent, send_and_wrap_of_error path _ _ sr _ hs, hty]
    · by_cases h1 : msg = WazuhQueue.HC_SK_RESTART
      · simp [send_msg_to_agent, send_and_wrap_of_error path _ _ sr _ hs, hty, h1]
      · by_cases h2 : msg = WazuhQueue.HC_FORCE_RECONNECT
        · simp [send_msg_to_agent, send_and_wrap_of_error path _ _ sr _ hs, hty, h1, h2]
        · by_cases h3 : msg = WazuhQueue.RESTART_AGENTS
          · simp [send_msg_to_agent, send_and_wrap_of_error path _ _ sr _ hs, hty, h1, h2, h3]
          · by_cases h4 : msg = WazuhQueue.RESTART_AGENTS_JSON om
            · simp [send_msg_to_agent, send_and_wrap_of_error path _ _ sr _ hs,
                hty, h1, h2, h3, h4]
            · exact absurd (by simp [send_msg_to_agent, hty, h1, h2, h3, h4]) hw

theorem C8_send_failure_translation_witness :
    (send_msg_to_agent "/q" "api" (some 0) "force_reconnect" "007" "control").outcome =
      .error (.WazuhError 1014 ": WazuhQueue socket with path /q") := by
  have h := (C8_send_failure_translation "/q" "api" (some 0) "force_reconnect" "007"
    "control").2.1 (Or.inr rfl) (by decide)
  simpa using h

theorem str_suffix_append (a b : String) : b.data <:+ (a ++ b).data := by
  rw [String.data_append]
  exact ⟨a.data, rfl⟩

theorem create_true_eq (flag aid msg : String) :
    create_wazuh_queue_socket_msg flag aid msg true =
      ("(msg_to_agent) [] " ++ flag ++ " " ++ aid ++ " " ++ msg) ++
        " - null (from_the_server) (no_rule_id)" := rfl

theorem create_false_eq (flag aid msg : String) :
    create_wazuh_queue_socket_msg flag aid msg false =
      ("(msg_to_agent) [] " ++ flag ++ " " ++ aid ++ " ") ++ msg := rfl

theorem ends_with_create_true (flag aid msg : String) :
    ends_with_restart_suffix (create_wazuh_queue_socket_msg flag aid msg true) := by
  rw [create_true_eq]
  exact suffix_of_append _

theorem not_ends_create_false (flag aid msg : String) (c : Char)
    (hm : msg.data.getLast? = some c) (hc : c ≠ ')') :
    ¬ ends_with_restart_suffix (create_wazuh_queue_socket_msg flag aid msg false) := by
  rw [create_false_eq]
  exact not_suffix_of_getLast _ c (getLast_append _ msg c hm) hc

theorem smta_control_invalid (path om : String) (sr : Option Nat)
    (msg agent_id msg_type : String) (hty : msg_type ≠ WazuhQueue.AR_TYPE)
    (h1 : msg ≠ WazuhQueue.HC_SK_RESTART) (h2 : msg ≠ WazuhQueue.HC_FORCE_RECONNECT)
    (h3 : msg ≠ WazuhQueue.RESTART_AGENTS) (h4 : msg ≠ WazuhQueue.RESTART_AGENTS_JSON om) :
    send_msg_to_agent path om sr msg agent_id msg_type =
      ⟨[], .error (.WazuhInternalError 1012 msg)⟩ := by
  simp [send_msg_to_agent, hty, h1, h2, h3, h4]

theorem smta_ar_framed (path om : String) (sr : Option Nat) (msg agent_id msg_type : String)
    (hty : msg_type = WazuhQueue.AR_TYPE) (h000 : agent_id ≠ "000") :
    (send_msg_to_agent path om sr msg agent_id msg_type).writes =
      [create_wazuh_queue_socket_msg (spec_flag agent_id msg) (spec_target agent_id) msg
        false] := by
  by_cases h1 : msg = WazuhQueue.HC_SK_RESTART <;>
    by_cases h2 : msg = WazuhQueue.HC_FORCE_RECONNECT <;>
      by_cases haid : agent_id = "" <;>
        simp [send_msg_to_agent, send_and_wrap_writes, hty, h000, spec_flag, spec_target,
          h1, h2, haid]

theorem smta_control_valid (path om : String) (sr : Option Nat)
    (msg agent_id msg_type : String) (hty : msg_type ≠ WazuhQueue.AR_TYPE)
    (hmsg : msg = WazuhQueue.HC_SK_RESTART ∨ msg = WazuhQueue.HC_FORCE_RECONNECT ∨
      msg = WazuhQueue.RESTART_AGENTS ∨ msg = WazuhQueue.RESTART_AGENTS_JSON om) :
    (send_msg_to_agent path om sr msg agent_id msg_type).writes =
      [create_wazuh_queue_socket_msg (spec_flag agent_id msg) (spec_target agent_id) msg
        (msg == WazuhQueue.RESTART_AGENTS || msg == WazuhQueue.RESTART_AGENTS_JSON om)] := by
  have hjs : WazuhQueue.RESTART_AGENTS_JSON om ≠ "syscheck restart" :=
    json_ne om _ (by decide)
  have hjf : WazuhQueue.RESTART_AGENTS_JSON om ≠ "force_reconnect" :=
    json_ne om _ (by decide)
  have hjr : WazuhQueue.RESTART_AGENTS_JSON om ≠ "restart-ossec0" :=
    json_ne om _ (by decide)
  rcases hmsg with h | h | h | h <;> subst h <;> by_cases haid : agent_id = "" <;>
    simp [send_msg_to_agent, send_and_wrap_writes, spec_flag, spec_target, hty, haid,
      WazuhQueue.HC_SK_RESTART, WazuhQueue.HC_FORCE_RECONNECT, WazuhQueue.RESTART_AGENTS,
      hjs, hjf, hjr, hjs.symm, hjf.symm, hjr.symm, create_wazuh_queue_socket_msg]

/-- C1: every legacy framed wire message carries the flag of the four-way
rule (`N!S`/`NNS` when targeted, `A!N`/`ANN` when broadcast, the `!` exactly
for `syscheck restart` / `force_reconnect`) and the target field given by
the agent id, or the literal `(null)` when the id is empty. -/
theorem C1_framed_flag_and_target (path om : String) (sr : Option Nat)
    (msg agent_id msg_type : String)
    (hraw : ¬ (msg_type = WazuhQueue.AR_TYPE ∧ agent_id = "000")) :
    ∀ w ∈ (send_msg_to_agent path om sr msg agent_id msg_type).writes,
      ∃ rest, w = "(msg_to_agent) [] " ++ spec_flag agent_id msg ++ " " ++
        spec_target agent_id ++ " " ++ rest := by
  intro w hw
  by_cases hty : msg_type = WazuhQueue.AR_TYPE
  · have h000 : agent_id ≠ "000" := fun h => hraw ⟨hty, h⟩
    rw [smta_ar_framed path om sr msg agent_id msg_type hty h000] at hw
    simp only [List.mem_singleton] at hw
    subst hw
    exact ⟨msg, by simp [create_wazuh_queue_socket_msg]⟩
  · by_cases hv : msg = WazuhQueue.HC_SK_RESTART ∨ msg = WazuhQueue.HC_FORCE_RECONNECT ∨
        msg = WazuhQueue.RESTART_AGENTS ∨ msg = WazuhQueue.RESTART_AGENTS_JSON om
    · rw [smta_control_valid path om sr msg agent_id msg_type hty hv] at hw
      simp only [List.mem_singleton] at hw
      subst hw
      by_cases hr : (msg == WazuhQueue.RESTART_AGENTS ||
          msg == WazuhQueue.RESTART_AGENTS_JSON om) = true
      · exact ⟨msg ++ " - null (from_the_server) (no_rule_id)",
          by simp [create_wazuh_queue_socket_msg, hr, String.append_assoc]⟩
      · simp only [Bool.not_eq_true] at hr
        exact ⟨msg, by simp [create_wazuh_queue_socket_msg, hr]⟩
    · push_neg at hv
      obtain ⟨h1, h2, h3, h4⟩ := hv
      rw [smta_control_invalid path om sr msg agent_id msg_type hty h1 h2 h3 h4] at hw
      simp at hw

theorem C1_framed_flag_and_target_witness :
    ∃ rest, ("(msg_to_agent) [] NNS 007 whoami" : String) =
      "(msg_to_agent) [] " ++ spec_flag "007" "whoami" ++ " " ++
        spec_target "007" ++ " " ++ rest :=
  C1_framed_flag_and_target "/q" "api" (some 5) "whoami" "007" WazuhQueue.AR_TYPE
    (by decide) "(msg_to_agent) [] NNS 007 whoami" (by decide)

/-- C3, counterexample: the claim quantifies over every call "regardless of
message type", but on the active-response path the formatter is always
invoked without the restart flag: the call with payload `restart-ossec0`
(a restart-agents variant), agent `001` and msg_type `ar-message` transmits
a framed message with no restart suffix. -/
theorem C3_suffix_iff_counterexample :
    (send_msg_to_agent "/q" "api" (some 5) "restart-ossec0" "001"
        WazuhQueue.AR_TYPE).writes = ["(msg_to_agent) [] NNS 001 restart-ossec0"] ∧
    "restart-ossec0" = WazuhQueue.RESTART_AGENTS ∧
    ¬ ends_with_restart_suffix "(msg_to_agent) [] NNS 001 restart-ossec0" :=
  ⟨by decide, by decide, by decide⟩

/-- C3, amended: restricted to non-active-response (control) calls, the
transmitted wire message ends with the restart suffix iff the payload is one
of the two restart-agents variants, independent of targeting. -/
theorem C3_suffix_iff_control_amended (path om : String) (sr : Option Nat)
    (msg agent_id msg_type : String) (hty : msg_type ≠ WazuhQueue.AR_TYPE) :
    ∀ w ∈ (send_msg_to_agent path om sr msg agent_id msg_type).writes,
      (ends_with_restart_suffix w ↔
        (msg = WazuhQueue.RESTART_AGENTS ∨ msg = WazuhQueue.RESTART_AGENTS_JSON om)) := by
  intro w hw
  by_cases hv : msg = WazuhQueue.HC_SK_RESTART ∨ msg = WazuhQueue.HC_FORCE_RECONNECT ∨
      msg = WazuhQueue.RESTART_AGENTS ∨ msg = WazuhQueue.RESTART_AGENTS_JSON om
  case neg =>
    push_neg at hv
    obtain ⟨h1, h2, h3, h4⟩ := hv
    rw [smta_control_invalid path om sr msg agent_id msg_type hty h1 h2 h3 h4] at hw
    simp at hw
  case pos =>
    rw [smta_control_valid path om sr msg agent_id msg_type hty hv] at hw
    simp only [List.mem_singleton] at hw
    subst hw
    rcases hv with h | h | h | h <;> subst h
    · have hb : (WazuhQueue.HC_SK_RESTART == WazuhQueue.RESTART_AGENTS ||
          WazuhQueue.HC_SK_RESTART == WazuhQueue.RESTART_AGENTS_JSON om) = false := by
        rw [Bool.or_eq_false_iff]
        exact ⟨by decide, sk_beq_json om⟩
      rw [hb]
      constructor
      · intro hsuf
        exact absurd hsuf (not_ends_create_false _ _ _ 't' (by decide) (by decide))
      · rintro (h | h)
        · exact absurd h (by decide)
        · exact absurd h.symm (json_ne om _ (by decide))
    · have hb : (WazuhQueue.HC_FORCE_RECONNECT == WazuhQueue.RESTART_AGENTS ||
          WazuhQueue.HC_FORCE_RECONNECT == WazuhQueue.RESTART_AGENTS_JSON om) = false := by
        rw [Bool.or_eq_false_iff]
        exact ⟨by decide, fr_beq_json om⟩
      rw [hb]
      constructor
      · intro hsuf
        exact absurd hsuf (not_ends_create_false _ _ _ 't' (by decide) (by decide))
      · rintro (h | h)
        · exact absurd h (by decide)
        · exact absurd h.symm (json_ne om _ (by decide))
    · have hb : (WazuhQueue.RESTART_AGENTS == WazuhQueue.RESTART_AGENTS ||
          WazuhQueue.RESTART_AGENTS == WazuhQueue.RESTART_AGENTS_JSON om) = true := by
        rw [Bool.or_eq_true]
        exact Or.inl (by decide)
      rw [hb]
      exact ⟨fun _ => Or.inl rfl, fun _ => ends_with_create_true _ _ _⟩
    · have hb : (WazuhQueue.RESTART_AGENTS_JSON om == WazuhQueue.RESTART_AGENTS ||
          WazuhQueue.RESTART_AGENTS_JSON om == WazuhQueue.RESTART_AGENTS_JSON om) = true := by
        rw [Bool.or_eq_true]
        exact Or.inr (beq_self_eq_true _)
      rw [hb]
      exact ⟨fun _ => Or.inr rfl, fun _ => ends_with_create_true _ _ _⟩

theorem C3_suffix_iff_control_amended_witness :
    ends_with_restart_suffix
        "(msg_to_agent) [] NNS 007 restart-ossec0 - null (from_the_server) (no_rule_id)" ↔
      ("restart-ossec0" = WazuhQueue.RESTART_AGENTS ∨
        "restart-ossec0" = WazuhQueue.RESTART_AGENTS_JSON "api") :=
  C3_suffix_iff_control_amended "/q" "api" (some 5) "restart-ossec0" "007" "control"
    (by decide)
    "(msg_to_agent) [] NNS 007 restart-ossec0 - null (from_the_server) (no_rule_id)"
    (by decide)
